import Mathlib

/-!
Shallow embedding of the utility functions of `src/RayTracing/Common.h`
(integer hash, counter-based RNG, uniform float extraction, barycentric
vertex interpolation), together with proofs of the specification's
properties about them.

Conventions of the embedding:
* Metal `uint` (32-bit unsigned) values are represented as `Nat`; every
  operation that can overflow 32 bits (`*`, `<<`) is followed by an
  explicit `% 2 ^ 32`, exactly where the hardware wraps.
* `float` values in the interpolation helpers are represented as `ℚ`
  with exact arithmetic.
* The IEEE-754 bit reinterpretation in `Rand` is modelled by an explicit
  interpreter `float32ValOfBits` from bit patterns to exact values.
-/

namespace MetalPT

/-- Embedding of Metal `uint2`: a pair of 32-bit unsigned components. -/
structure uint2 where
  x : Nat
  y : Nat
  deriving DecidableEq, Repr

/-- Embedding of `struct CRNG { uint2 Seed; }` from `src/RayTracing/Common.h`. -/
structure CRNG where
  Seed : uint2
  deriving DecidableEq, Repr

/-- Embedding of `Hash` (`src/RayTracing/Common.h`, lines 87-94):
`seed = (seed ^ 61) ^ (seed >> 16); seed *= 9; seed = seed ^ (seed >> 4);
seed *= 0x27d4eb2d; seed = seed ^ (seed >> 15);` with `uint` arithmetic. -/
def Hash (seed : Nat) : Nat :=
  let s1 := (seed ^^^ 61) ^^^ (seed >>> 16)
  let s2 := s1 * 9 % 2 ^ 32
  let s3 := s2 ^^^ (s2 >>> 4)
  let s4 := s3 * 0x27d4eb2d % 2 ^ 32
  s4 ^^^ (s4 >>> 15)

/-- Embedding of `RngNext` (`src/RayTracing/Common.h`, lines 96-104).
Returns the produced word together with the updated state:
`result = Seed.x * 0x9e3779bb; Seed.y ^= Seed.x;
Seed.x = ((Seed.x << 26) | (Seed.x >> (32 - 26))) ^ Seed.y ^ (Seed.y << 9);
Seed.y = (Seed.x << 13) | (Seed.x >> (32 - 13));`. -/
def RngNext (rng : CRNG) : Nat × CRNG :=
  let result := rng.Seed.x * 0x9e3779bb % 2 ^ 32
  let sy1 := rng.Seed.y ^^^ rng.Seed.x
  let sx1 := (((rng.Seed.x <<< 26) % 2 ^ 32) ||| (rng.Seed.x >>> (32 - 26))) ^^^ sy1 ^^^
    ((sy1 <<< 9) % 2 ^ 32)
  let sy2 := ((sx1 <<< 13) % 2 ^ 32) ||| (sx1 >>> (32 - 13))
  (result, ⟨⟨sx1, sy2⟩⟩)

/-- Exact value of an IEEE-754 binary32 bit pattern (sign bit 31, biased
exponent in bits 23-30, mantissa in bits 0-22), as a rational number.
Finite patterns only: exponent field `0xff` (infinities/NaNs) has no
rational value and never arises at the use site below, where the
exponent field is forced to `127` by the OR with `0x3f800000`. -/
def float32ValOfBits (b : Nat) : ℚ :=
  let sign : Nat := (b >>> 31) % 2
  let e : Nat := (b >>> 23) % 2 ^ 8
  let m : Nat := b % 2 ^ 23
  let mag : ℚ :=
    if e = 0 then (m : ℚ) / 2 ^ 23 * (2 : ℚ) ^ (-(126 : ℤ))
    else (1 + (m : ℚ) / 2 ^ 23) * (2 : ℚ) ^ ((e : ℤ) - 127)
  if sign = 0 then mag else -mag

/-- Embedding of `Rand` (`src/RayTracing/Common.h`, lines 106-109):
`uint u = 0x3f800000 | (RngNext(rng) >> 9); return as_type<float>(u) - 1.0;`.
The IEEE-754 subtraction is modelled by exact rational subtraction: the
pattern `0x3f800000 | m` with `m < 2^23` denotes `1 + m / 2^23`, and the
mathematical difference `m / 2^23` is itself exactly representable in
binary32, so the hardware subtraction is exact. -/
def Rand (rng : CRNG) : ℚ × CRNG :=
  let step := RngNext rng
  let u := 0x3f800000 ||| (step.1 >>> 9)
  (float32ValOfBits u - 1, step.2)

/-- Embedding of `InitCRND` (`src/RayTracing/Common.h`, lines 111-120):
`uint s0 = (id.x << 16) | id.y; uint s1 = frameIndex;
rng.Seed.x = Hash(s0); rng.Seed.y = Hash(s1); RngNext(rng); return rng;`. -/
def InitCRND (id : uint2) (frameIndex : Nat) : CRNG :=
  let s0 := ((id.x <<< 16) % 2 ^ 32) ||| id.y
  let s1 := frameIndex
  (RngNext ⟨⟨Hash s0, Hash s1⟩⟩).2

/-- The stream of the first `n` words produced by iterating `RngNext`
from a given state (successive calls on one mutable state in the source). -/
def rngOutputs : CRNG → Nat → List Nat
  | _, 0 => []
  | rng, n + 1 => (RngNext rng).1 :: rngOutputs (RngNext rng).2 n

/-- 32-bit left rotation as the claims state it:
`rotateLeft32(x, n) = (x << n) | (x >> (32 - n))` on 32-bit words. -/
def rotateLeft32 (x n : Nat) : Nat :=
  ((x <<< n) % 2 ^ 32) ||| (x >>> (32 - n))

/-- One xor-shift stage `x ^ (x >> k)` on 32-bit words. -/
def xorShift (k x : Nat) : Nat := x ^^^ (x >>> k)

/-- One multiplication stage `x * c` on 32-bit words. -/
def mulMod32 (c x : Nat) : Nat := x * c % 2 ^ 32

/-- Modelled from the spec: the five-stage hash shape of §4.1 — an
xor-shift, multiply by 9, an xor-shift, multiply by `0x27d4eb2d`, a final
xor-shift — with the (unspecified) shift amounts `a`, `b`, `c` left as
parameters, and no further operations. -/
def hashSpecForm (a b c x : Nat) : Nat :=
  xorShift c (mulMod32 0x27d4eb2d (xorShift b (mulMod32 9 (xorShift a x))))

/-- Embedding of Metal `packed_float3` with exact rational components. -/
@[ext]
structure float3 where
  x : ℚ
  y : ℚ
  z : ℚ
  deriving DecidableEq, Repr

/-- Embedding of Metal `packed_float2` with exact rational components. -/
@[ext]
structure float2 where
  x : ℚ
  y : ℚ
  deriving DecidableEq, Repr

/-- Componentwise vector-times-scalar, as Metal's `float3 * float`. -/
def float3.mulScalar (a : float3) (s : ℚ) : float3 := ⟨a.x * s, a.y * s, a.z * s⟩

/-- Componentwise vector addition on `float3`. -/
def float3.add (a b : float3) : float3 := ⟨a.x + b.x, a.y + b.y, a.z + b.z⟩

/-- Componentwise vector-times-scalar, as Metal's `float2 * float`. -/
def float2.mulScalar (a : float2) (s : ℚ) : float2 := ⟨a.x * s, a.y * s⟩

/-- Componentwise vector addition on `float2`. -/
def float2.add (a b : float2) : float2 := ⟨a.x + b.x, a.y + b.y⟩

/-- Embedding of `struct Vertex` (`src/RayTracing/Common.h`, lines 34-38). -/
@[ext]
structure Vertex where
  position : float3
  normal : float3
  texcoord : float2
  deriving DecidableEq, Repr

/-- Embedding of the `float3` overload of `Interpolate`
(`src/RayTracing/Common.h`, lines 63-73): weights `(u, v, w)` are taken
directly from the barycentric argument. -/
def Interpolate3 (v0 v1 v2 : Vertex) (barycentric : float3) : Vertex :=
  let u := barycentric.x
  let v := barycentric.y
  let w := barycentric.z
  { position := ((v0.position.mulScalar u).add (v1.position.mulScalar v)).add
      (v2.position.mulScalar w)
    normal := ((v0.normal.mulScalar u).add (v1.normal.mulScalar v)).add
      (v2.normal.mulScalar w)
    texcoord := ((v0.texcoord.mulScalar u).add (v1.texcoord.mulScalar v)).add
      (v2.texcoord.mulScalar w) }

/-- Embedding of the `float2` overload of `Interpolate`
(`src/RayTracing/Common.h`, lines 75-85): the third weight is computed as
`w = 1.0f - u - v`. -/
def Interpolate2 (v0 v1 v2 : Vertex) (barycentric : float2) : Vertex :=
  let u := barycentric.x
  let v := barycentric.y
  let w := 1 - u - v
  { position := ((v0.position.mulScalar u).add (v1.position.mulScalar v)).add
      (v2.position.mulScalar w)
    normal := ((v0.normal.mulScalar u).add (v1.normal.mulScalar v)).add
      (v2.normal.mulScalar w)
    texcoord := ((v0.texcoord.mulScalar u).add (v1.texcoord.mulScalar v)).add
      (v2.texcoord.mulScalar w) }

/-- State iteration: the RNG state after `n` calls to `RngNext`. -/
def rngIter : CRNG → Nat → CRNG
  | rng, 0 => rng
  | rng, n + 1 => rngIter (RngNext rng).2 n

/-- The first `n` outputs of the generator packed into one natural number,
32 bits per output, position `i` in bits `32*i .. 32*i+31`. -/
def packOuts : CRNG → Nat → Nat
  | _, 0 => 0
  | rng, n + 1 => (RngNext rng).1 + (packOuts (RngNext rng).2 n <<< 32)

/-- The 32-bit digit of `V` at position `p`. -/
def digit32 (V p : Nat) : Nat := (V >>> (32 * p)) % 2 ^ 32

/-- The 16-bit digit of `R` at position `p`. -/
def digit16 (R p : Nat) : Nat := (R >>> (16 * p)) % 2 ^ 16

/-- Checks that the 32-bit digits of `V` strictly ascend at consecutive
positions `n < n+1` for all `n` below the fuel. -/
def ascentBelow (V : Nat) : Nat → Bool
  | 0 => true
  | n + 1 => decide (digit32 V n < digit32 V (n + 1)) && ascentBelow V n

/-- Checks that the 16-bit digits of `Q` invert the 16-bit digits of `R`
at every position below the fuel. -/
def leftInvBelow (R Q : Nat) : Nat → Bool
  | 0 => true
  | j + 1 => (digit16 Q (digit16 R j) == j) && leftInvBelow R Q j

/-- Checks, for every position `p` below the fuel, that the rank digit
`digit16 R p` is below `b` and that the packed output digit at `p` equals
the sorted-table digit at that rank. -/
def valsBelow (W V R b : Nat) : Nat → Bool
  | 0 => true
  | p + 1 => (decide (digit16 R p < b) && (digit32 W p == digit32 V (digit16 R p))) &&
    valsBelow W V R b p

/-- The state `InitCRND ⟨0, 0⟩ 0`, as a literal. -/
def certS0 : CRNG := ⟨⟨2869077285, 1420080480⟩⟩

/-- The state after 250 further steps from `certS0`. -/
def certS250 : CRNG := ⟨⟨1332068662, 3089549804⟩⟩

/-- The state after 500 further steps from `certS0`. -/
def certS500 : CRNG := ⟨⟨313542750, 151765590⟩⟩

/-- The state after 750 further steps from `certS0`. -/
def certS750 : CRNG := ⟨⟨3127651668, 2242549581⟩⟩

/-- Outputs 0..249 of the run from `certS0`, packed 32 bits per value. -/
def certW1 : Nat := 107745502260590361182238171121042512335430516051243003727378740516914466133126033056361348730819331866352547739119621402574103964952017969610061575946638927567668074291427978449862554124662017523751312443349880130269717003148876125649203050714853378513722519476069060356120452668341173692292153971111815983463183381663620886337513983414208156991962060258919101423010782260513502621406568472773462707116335978511792791700933907965169596477145378506047176957256335575898393155005735926370286101242455009242692060023314129801577914904911451617723250326721751472417162805057563281530136880407952744389815930191857526306053559068086398845768251021865464840629683471740964524495831154244870515777302090705214998562296137199719894232399016258759431987978127019791256903622482779493460340283695693093688619308520340398824484339073565351845632208286663634804846063365462804591800093935501190988930798235295908086464569380085973519254420683274791103460098943330811069915734347121774554517302274707960553714720497146863351891392122771927739835698089359448208476799299167511356581395957372096351185686847902410709463154143714621661055914511393648695993723021577095458768205909576559269013412006804014245288997578212497818141390961290220612150384144192903933274044668810371845600512621224789889389188733008787298293929477601191635544409938020314221251099344033136059351598000011797676024066002944940989768423260782477569725661599311010881323640095230818289360666147933439261592631692886983512508703973014906526857201866295054055282485194276566124011612909948254108650240998580132371214274234269717987288608089844360171921712395656990454099887997868476886885861508231891648164907149633868890377502108896983640329050921681568045248215137081287440276645645272447083021418554295741095873329156522743344123274416070809645541657413487907837534000261214265786544236854128167705593916742811456711353833285720623928963159896492926053607263529578389372992112355118911904102648981104991558809865624490477067997456516641443651571139154762106295023465084850699450404530667638819105854632873969408856819316067697999885831717967631970335775816263763125359839375263201162452703264771789050058733171882481060068698647608742171182052690372192943411245511588201687285102897779733912871193437773529954541000866635721498915779692020690743677438078729271500688565569932555439915453010133940059884691867801940537504768308559763586086017778589447

/-- Outputs 250..499 of the run from `certS0`, packed 32 bits per value. -/
def certW2 : Nat := 112013303267560493498763608510506002012389189881946321584600312662655610850584868789369240398253042803698683143045195686690598143913271694613412781667136910877289683511636764377910113478065528705250120831662800303977044352531865112691648892719364352827031750024942388649723039792783310882037158524049001633308066252255294294133637942751474890896061446065998636448241511735761372240287327371620050120712520843009356951349744313245516865197650607713360012650932116477346004753048638806563239332757487113579320076880308210632382857819275297452558545814573698058075909093562692972156330040388025238311482818093796487038527386900473781185356619513055883218428851080420631776975515978086016559135135339540866945595166960542817511700400483818240031992027534796640947375615298264676649529391381404607252889107261674924603962962377876968001171809832942452023729648710069017335082620712487754266801787646007556596684860075149615220456147746464553676737077398608406173145709582957110932740763699352976530672650888891906377459767529382900343062857565723818850479408938892521292664514204543602995247520722903761342385588581536760544102712179458660413600774946600019398217809027134278437421938978413674890672875545025072678958152688841664183722060433880137241951372760382946462271426345781226422092343160923907951595337947305444488317654910624204828283973468785340992354899107106187133049877145304846528518350912421067003791074562128111892795701265349762582442349456590374848831001498211880559804734825609877265673881636661051237322191557523217134744477568789224968001152322536837809436086681624832942990354260937662269910517007247215679001964557565366909278695665861339160949852341539466831543705940156586433617499894793356390113167080709699576620757631590186669269568362404293346854275649518428139718314786533138578186603006267872395420952986975343911919547596872972494176646466349884665340279340482822935358299734703550425606588513940048552273467586659665554442387745862679562716678418061992860119704966527717161979959576082286494597312720779643856203679616504838893590932926510941469442703101116394593235420536939108316356624592136721484897407610430287584384845651192423788355466959228328102940036703226039854999662756846456519719118107564339686105014299852581465848027965574101715302006596455506800002028700162052822491014635569093231603926335630327966452296035458892288888099639010173465559384036453347863076811090034

/-- Outputs 500..749 of the run from `certS0`, packed 32 bits per value. -/
def certW3 : Nat := 71630289220360512170781505160498345143073577589037964161088413927893148876907747446722750694346644987399537732975059251989948147949556387236091606251125742334046939252993287451527767049917078083953225302275161108737552372423914106632679036586136076874361902182190146877784067430507866481932965482482942111943678211511369834708654694259415611660557920916939883341588321474780035348790040466523252816762633943976467192368749154931363902735509184887463859145792249866447240297243511175527913703449864659486576642710165192850045528173559891135582120268085521427789305774568909481294642826764884186601173896789598438662405414658397115479211216058519360367816756019491402657248989248176980619579554706827289113091995270612401186036769340168231589923249948095371060337508093573551231851776151124499783532409623965999519702478130842199789715035036772901669445283946863747133696110635776465989403833285108063714615236232121997374814922046588042557834277519538214256210493878445932857829179549621612217918215700450204573097151309726509093722508365769541890783844603965250645981814797576982661174605264252493051793819403305616259103694877061012689944016678056135668408892067979792171128468629602844145090786847446542226286497638077910518054173267026033074614774611325619045740715660041411749372382437308981030477815343611010502589151491670436643336442704918800588235666597964781285096719006363948628819462559013592619617090144336466257780217371949875100317962008017181927696286169472751499909863094392782891147988895135630429506271907772842996075740986009372902682866710801317619065450812910123761227083688391320244019472521368437161792165565920689054298672186776348253070328519302266721699949260024068668056325341064021714127720374438667469932085669205989877802492113396760276420527081011975985576968080373769808052897921087237231314149679040029315103474636192918603040579465834953047216174588114406960151695223792588729257850962667913280282200559636808371253947562261550812114261780615088590440877264089203036946037985216886809137338515368345712819012203864678511325710150220167173344486888010493995515639578480030042175072133569237407046579554644814213520939278796344133682770580457282817116947385916831875530965394694087747791159476876535165760003305978174041980827734119061378118592598928254397084887607968212334829716915132422734502417586888623931999632649420499495658453880639902635456473475768267226494937025194

/-- Outputs 750..999 of the run from `certS0`, packed 32 bits per value. -/
def certW4 : Nat := 17644216036682903837891339588115244909690507382527182309116752429915996374995718439230159978257185779525141337909704622327686281292121520068752565821863942658995620212874698612639663764766741729497530033746995340535792141527269581164217923724277777613119537608039726857049406615273069987824336672061389829880270345256338506981617316398282358156966177597517585706408726823325078028084227590537436558249801056214947989628668415265790027588172392879860292412409715498140166704718870894578372275161121631979152686902388833520852847755745185659833918222918321595104959354867368778974382470866949218351575139288701978434812301242975666738767972883403532094117332623469860079802784330585181638968331219422058198659443100866416004309813302588887012401405106575976606612200455654542504047778772919932414439317683530884246887880541413523123379871263528949767985138074512127637468951134030798736637054147944262265152891740476939193589409738776104358072207841922682590688174558639957792604912243637750825768791503548496649420415851134276359448415253710405419055758428696828811177030401092907235709287809289719044649473284147430082427663878536228952770534648533222650655983010055060807490066660637563074427856565136167169530282583199962868907286628150231475216333440819914035371581073102891359861329426105925207128357337488074190716645887320596256516297629733726482912513786907269190270992783325554321630937046327537239374572388281258406375138521730125652705552780694221938458944236111737369449247733916720125017017667050761215008013512565537313347322244586969742251216632240334646047209181384014593363305153110170420460105119694934974001687923855393887008545940771486555076423068330382008650451693507711807489427095159619872612328526627044883244214908413445439870757451491424773504055906523423758845784396546123305013408269770364470110142775552552752057240787770197156525251350205257480560387878972562257571716769193313472371765819768071927824369215484281804646672863508482196540380646172077191629448673546190748820909210239659978028591988856913307556613814387135715306235291139089365482836545416607813991499799921120634835306337814884330148011987307194226683623761771696116110501528614380789048187693385925993784248761228074078244092201402256573366128098291858077072835195573573619992794213848126140666566467241133525714063719663267413152002869001414798600005166293191905229802371895451253815626867968794206563764916316

/-- All 1000 outputs of the run from `certS0`, packed 32 bits per value. -/
def certW : Nat := 92575976603866649024646281994763199431824518388204733539915445712475815668748722450314022151726262344742369892116287802547470315217094334512530991628403452434620404454680012028009706435731688901838435959868509805447103417895237207494559927912855508152147013959598995182721684579036554807280993727416835906331665811281800571209662604570804102167429642842011261230086340649331579145468877736683817051175879789571544785274873960148745653136282465393282909302451224938598543104444230215840178285375678740795646188604550338855013222851145826266784556049554791374692496713779994235480697805426790262770661554094804378104968639798759829695029982900246159299475864645852482694832238540880346302418715797743195567590978619440200175203051065372192509042668186280531532421250404884970551045770120548096527813644701352370906644659873972286372949374635496834148809897840374252757205471740117528241161533682214068201147713191232762501842535696694346637022809996740135670105486214415796568623581152739924282288813182105683894966393931292338029488959376591961495465869412374694453194229545120673410265710684892635312516604966068127903276250183322227376455243128270090107734376683532035597208978667991031236665081388648403119738915661524378617614395876565237993766082147411526129886055851051675981699539704365702101226912280345613831535958120265771040565742633711377142544504096666525299675040339630127235511164640417577706605695630922739966533867815734607921014415868997522344560503563861210683676825947359282596603727077719165558907948699792520888611859611664771940448533916454511869151967853828599666645650671344156748308629356495135398348907135972741677081564937349169988457724247175969082250964365873157361912060684938670247965745233042060459712819183984772125328870648236592373775866702579334835461448606404534882420089599513131559549490628103590643378186327250723517223238487023809970290837798730918151304673433238171669580582584365827271414974896058546177280041005367852751577630662262308427306963904792872213657801479340228289693893232160021651342166959172731449821066784511818621844548211436785966319835290040753576986437761385059927877116321665812442282125768799170960884106973978621208179858926068582956520271721404576435582277342199564209158655572592659962142256855827941672663795119893315620600927868676393507384585152475557437795025321720181663155117269139114974634826653038309345486975746643311963997026518695892722554201352162961328563684637352192712541097222078458114512493398099485302104240238868275733689808526201609790332040007583766881022243729977964426029907431709943396326420028772704606137293890811446881548588085501998724573917557303015167537651364067219391633059974000607155465810919170723804254953038082597783124910664872066811342652645256811549435105131949408666734359820422519889448830626582770346914427715601381301904867165181306598543774455427321294505241747565686198860909193239597929985732953091996880593370033012796626264406211919290775852789484198244003988433523945818082814658807183894343454409238119674915951225295497177289355405844090251004422828886529929902739581441532980144135912290047709981045097358739680357042601625475382437760368446223052645601083547656883682481952836462923651382185822411529227812070657912839331120236303300340207299635414898758066709965718802797253496636264758110630831086819476830955940230225624729041054230145985691901883674569164314632907263922787280231715727007318576246709033236997212022321847938692979046112393067644482855226489436035370263355809597142366315901963430490784801852515161871887499609826218488777606287945910892354125865746908860726935250292305534476226742163147688457818747118826011473718907121006650560712094585138530823548187255641965504209202257537385609770889727951688070831959738104127233997706199539935286459395545552601810075797400925543073785721047663281188394636764139022941889703408064558538796851458337523441330495689641134522060942126718463287961580733655463900422865605767667892890783220835371128579741084767746747114864357147267023187535423679049918283833700627751249386950031448774376439329673443805973622391886548671994747067570626471538647023665258514496776631844182710260449100566075347644807726680343644327886095086733513094434629144721050017035103699130740140244280150801278387415770533988506341326527983757925870429959334755568934229531238842734182865974511386222785614934296420552885127238155438187354799103912248440453789259970366465261949928153516245548951399490836560867742333173844461470027253156075480498749149133763518791445448779928477440038820854514129253407236685184973623779732513532699207961261790372274595128953546967168160983717261624664725645686232527021586039211349808086070851423701962695604705738006891016362729009810270856827723902199039336330634786870003776642832302722048497645587623226465694800471835091229720576220394384115319618179256875167549828752533616520134695811695112927246880830872601144056733458859277367213401458031458169758612341581031163583813768182550075782469595177942671229995276845924963694158358011616181317125367412094263145924623175142516730019540803143333448213371613099898724843427228992471761260246785660620661914171117628496112703748577512837982371213147391717767772755215786411117465290561270127105969217524880850271937148832661072209408651353080035132464430632397278317409957685556032620623357978695826928366872884086487745828071966228373264501657567342686000472803288473583237614910151437333415307359983027618165503287202816294222465434334331999937011868225565859220512809349923538358289428059201726189911596326332693671633970013981385405352275971443098362855335340976758994986868461330255383688234042843037652207822366751278287907041922844256568906096637630347035894319370122539638677863281650505407153905455233608364447849992354696985315573151305939827852155827432671317176091659303229411568913986570025845740426912521429367425442602957093069089505224686375498446328222549583930923980032526308195826871314435715431285550235294331624399202753629403428389445077113215902473285214238317341765987525556878668588277278059864302354221779264361998793194151503573149313030148807007828819581407377772778982746824885109017440995451024699628826038474223075529647236057856880615516554551583557753940990778423461317224726602889585515449151962971883527120900321323096286877504378993235640289177390940220076709715673834816128747175538816197670572519067167743962334792122349083634101057410085566054854761484051480030585603847865929914098599247432700250733762509070970988375052179523097110816854793609875435901522741071982148371599510735698289689784738706408773887539354084877418255987088224505422416334135324980789258809664682270765740401364809188702504501040039510006836774387599795652604036799080365917756188998879543213746328770189168505655213174150176574714517506813012427435312255503735893257131251752166912984312175829232244505694248827319472482848481594565751257610941115212858589586183167594085940995266034983541769485573087528009974758399004956084941433230100771346864461783642825380336254297494194022710147411087707921109043736386822714901306834794418089035364192708791406469408687877936696774885049260825668584639915057362011603407838222341988197352645423288911305822281286605404219319100621356525701999468000381038343111579845103842334059939409321510476604967166154995256246702036664745241184328862201693643405986566046543144005730835408393936552259468018213613192606099096655802147726045229098828454266724761396961873990070093627428671123207802257783256486014270433855419089112050286824548162136023441754757072933637574773277499330608855721945804603674697977663145819653210455920714611751551705726332005414077210112599993626415588916818678195367852188934725867186376921349658622002100023853064671869508874772913001751735688436502167113783695147296461936685620043380568932010017584751153310157456297262746942635395140158516487932574562323390765398138030128152402850900488426201875007642825355938112654779033086664342015874229072656195163920219191844308081999214800723860519295698773639402933270494277604933755446560488324437020511429123618863091811281149759684046337040778202237849532556579485924553725334031736045962046476653603005459768406401166416197734391610683996882102411055654968687658197212051601630951740606580903923027123009092983398813718815576108538969021020341656991456109013275160945220169339271549807650946917716522651832047393704387586396197025717230292312995859926254698229815199227211007354277423008341228711489539628269340594695657777261042697636954620016340725528280675491166978922749145393289363773257559322435156977147817059446890910794811910653823330748387693504875447787853609532984202607694485045611562592069847648452913484089086806868811207230896308117328550919886829231220428711749659966027834753588586430038263863238018680645953910470172134133942622453905052446307881516245347550869422623236681393791490032071029630783172010550546085308733521929680328447289203843606521135009441186244723494115656172498245583192859189198082221370068735476413943102443162225635348353527109099925863110030989787989969276057141458689878741867170448913882082683339609212579845773728502951758876234958483558741588012609569298723102365871383924757712162627137370900788440803575155041039035937934955985837552713404138982029567739875258303351422828730502896143811672655167336718475332261483950300462414818858814710773854434452971018030793440080852810723814590847637756418567699785307912801495034002813202622153805458299559814936521850858822220083592147080595956050703562288763648372286900088310429822484767605137154786905998580626101479353271795671067481284129196871124510450746638452206345991

/-- The 1000 output values in ascending order, packed 32 bits per value. -/
def certV : Nat := 910271441070524273990875067906676991649019221708760354026330947793107376547448323279899160136736676818987520757807850783152583308170785411387756517818741829694365684204957652547240916894684267179910358673142636244892284852362568531450101719337360765579159628923892040311151297157155347721749439471515044544822580308013391418905322537624585826753092515395413775786255810565616789991831937741886275110987284779754810982007588656932535057197626814149278289101418741774929547740058746268533183140640537184386911026263465727814489446643494392534212420679672367302451559042412912035205092443173772940442563773448017254848911518164168676077740423689433169379358418655119936566342205578578809070335169510698119235315408319152739538085449691680768825458293805815556365377769718469708753037869305948728899181431661531569742019735378107487719409328475128950843348008274559828612644942350446025505535801329073920465708408728905330091552867589304959905164007623232753084185684098493133212776174925458291387767475169127234908665769674174194348749720561716704847755001377888772478203037290924725497579982810106429407410952564092756223499024631390321303601668640706894389704208333048506074620427377152998950147616763932387100323083292028355836166508778830027219446302029852755249243966508391679369858326543899929924013119153393581353835914095561969760599056659286859522552535339478009790405011731219830677152675911038085599303146575687222559357817507660472663554684217462311085889973914786063505194585708048207309246303090455749625446043155794122622323184806624538702761435013088435855715137600777018668935760527089041003692154272932061767393038851197775889610457239368510015807612232859159549164604284869194821520595129791669400724385312072591579266722702822037602990518891878158059289793965981833943561495341028102772906612835009916626850274714522118870007356075200665091249050128387128473902509479581129692498958367437223366123260867203996720519255298069058914568309505796119962877209926046200044153108545074196955317155363207105233491560325490464001905203214768880648621936290581608067456646548522560767243935468669793043509377662849760238620318619324836460633428531885080203098121488696396128206502599034678473069894465492051224043154223852121688666107379834338682389118289802807989620270344221670967931249204332559965226602035163115858602415751322463246873965746359842936689229966724692305205999033093141009731342191131226336228263295693250593721974836751675945331649907670758557057141625987559518626134919891671767453761917262194083247590606918776878471974835427572843933261386890672201232259426102017718678657235500493814554892977424116625795711451524488822072878078305191497420875372516835669586334225414968069536715692131210267011677277792197238974875910047216414441156794682063285583833492775734653718394304358640596832317878540102378055424895513768420969782629045258278186706357898440105415823769255860518482612461974202765387694507590671664261500421778101305430617339351941145187797558988960798349032046524816333397542753730302291105455547938917056378381719784982856914696387542021990442252518386241099274341129492289268410486288350358284355127414901906295889782706546013692771806304727967417474849485436188803682374907094898532091479893136094010476926830596237714739377217592426257910611762766075213381961932261483397284114945333061452678778365498343849111835282415083295928712920100256832587215651698082027652160948134378092304042229859846690046227399636687392320587133694445577912776382845145826659900699431740186761748703929707188158735500622466409525195883696056040154725014274629690313918093415864175576361278794312310443345876872111533858021940226477050978062663821130385709399246940869114168944503551744135198808796677151972236770362967357496536000689629657926879627333845492185833069672435229283235841200022691004523717281069817932692162099472627474736840419212922907388811893604615757617902875019557769863298722145385836080153307447575372817526740692666245812359269771305425801101558911980383737915006487611303056127917614829056865937865869026022291217202240402222339803654978813926493823713302563138871060328888467707466873185689687802431897907844665954687316472621708026242779546597818993186945878468358289421054865458469567208727630746298290015150674552369793652481555695991213945030596503237989579476223040015147404127102234987692820674881104735274720414609406581005399665074601048935743352754273375407998880461603897681773607151289757426679798792699334683679407481901772259666199263979837151581800324973026222033949121588360792329830750521953994481473925907596614965088856925345978072782950731947162780685119221070474827867679441753956635930222352267087724818686372487465563319562904686835170242854205445745038926980516390072477010769478176864810094094976761708425261278833641424652291407065628103691259641627145339223612975287864327208321760032726147319669504201616296804339829247495830217569775220193552815637631351682330267511492885688844402955041325929418561133331677418571630939209207257058450555313812782060940114005248840404764404811707740433882878473637733128679950208712177762706426501976592186791452151215160062637694427542384220691764708007334383618274882405379945024832196621249466323067780275835043932305468762830264012474857459775701551000539897845560111438027403661961719113253514047976423869512514659028423482513122118941865503602930983658610586115778351697312886902343543762382539218515174641068346143121174248490704292692257416973359360278874871198977579266260994535947003163837872107585308880106489370083965894723976544259453102754109709539476719812763864314918032293308668134538051662879285694947650918191452165090963217057125137327692896977890742541079740286660188387755421886538080669501943813806779124616744319010271468233129998603652040272373819085062047666750422947613985370420802404581456574422534271450146092628238376708835835874108002643425056021645627768599140104571068151878046740271423271735528222441649880768820872447405928577038483031690172634836442208505173851674692419565414266563338848501764788494855922039610873798721765655208293289375239994518005070610007838710020118892289266637682405629051400280657200049474216340275601182896794890828791893360208436237682063536861696495567939654455193447929784451425848256045897312026499412930636508314500113705956827356029460627628199910295115423729179848625947361485983317571333502668439870995962166620658795992581651838376386948867729884192249370348977371105980253262488308862635540239383297609717844018438481955268504504224561654918198464986911710663905048335559283195628436345943817405137988428060161216572560425264736336486513048206493681720065508817844760272999131945668410597680457227403440716193978585101760162322934399433101430748854108020191316111826743568987245760507707710495283031102639810666495588332064338085675834800025234133651931340626589124785342603455084350452573071185713280471042615054814459205440389128716751546875446192882811205701438048833740849061276797654484220362207608287484278115502328275764119226847505901127553993623876238582371945265360467593537712498831894329873989008557776571195836596463310362646707801791496247500297985182513018103650326248672605621920725039297406744317222438611014742391587214376419630763128658380987663942913932821113081165826835156592864062460116900517961202921311448809539189293954962952306903807680077249692704188058520864119730061927265308122387766022794712048464552968144549706334388253696487836741056793268463062971300678486110472053716816721666774765064039173573373536515100622969602351448176586780918362559530037310008998783753905726312694096637978302976804378508846982781320974579952861142877371264832553308536280070361633962495684387628346027798571113204584732034884403845390343199139747241163640485613700176478782149148242187813572672196645127005270886375311205429829510111047343051203445916622755420918311097726882042919783607894865350565478608623567881068229575557338104738400720097922399176508689090840110124139689101415579101135025828238022952652645775275563895611721688851024157975575182284979482004782961825321195908798690621898570362916275471063062304024804104317510130900566838427568117572035490246057778468037645997825661431315852758230950525604626759238088430391153738533730638628349473218609679174686432533664097314683142118848076988293484080437438454656509859425523311986561267103627430777136913154208693067383191841968962648056188166922553849810043685809066258973324627751944869108673579024466597564629088440996073049515469743554125238752053678411298094696733497916846038391577882963397967651848507095390873241403563919914114675088200086405335224895257101195138625879874986419123192591790388558109688897539755396561096290183165068993208055152795654197575870092119914806950148871758579795833640333057596658055135012012060074010439179544694123598717459956095293443549129528441264075260616464870035099542691220610861795219332646870517284447808464618332371010443114222316850969760635428664686281226807231623448932847168445271510013968617339031904178596788139989522296638140497006058908969232831769953725118553638398102310961135603218729180488130192702233824787190245068582072941978493918897439031515028923416447844190867901196254239718095120191313050071276486202632691975154368301217299132090108722697401064858908090586442477870759092635767948909049889461070741861243415629109362048259080184131243942564213642951258237546162801614099290282974529386812429182280885991771968107782545764560877165003710628002632716380904359192660572911107667149345760827410746158197153183600493943173690448307723212794550503477894806160357525329555537259565380440542409190829773153738375056

/-- For each position `p`, the rank of output `p` in the ascending order,
packed 16 bits per entry. -/
def certR : Nat := 46998767236465009235546112896305681542215828522299973647892763246867748192151110839220056482120763194071618361960509260485623090769311185056560669959190168174735030020822500842438112879685532263459341065578708701999417447295760676156560848207994044764050041441895940993213526340587572714753476379309051938301181546953546141671916770002478953598006068891732695391300035684490275830570937350312910062239060357071439941173929191503405355294038564929137778615024959197817090121059528901565146288416819371486712871932294120747211848774819211794996108141966518954255874320952276059182845043384237849816967410049416180144679955765890781152938400984560278321251318131717223941758754400746260880818576532270051834830550992978031388929003639509830176604890715938790033135482214063783784226355197669128206740935737870117538612599739389695826376966208905377528720175193493527331971059514641165256051927031623588605615213592354536197680555958342308758302671559891928541615389193412217547395004998760877573779246807929024042077486280002054311703774498163287089541531678614796069878839246569805301887164796431333598795159945317324562238474317618840694638531584744422173983758042741681979111971388003304856542673821989006643265132947190084700592183835316078568760755308478626398491421039690328147854752646692870276582088529339573013902203813253379464841665226436083731550296229327254786115578383904404584389971252963860190843280119374721898074544755572785016999970400900234393908481606796187230877413326894641224733665192406385320033645014671953250362154863496739050615848831806590008923852568883767300945999602642738236574788945261507005901232617316363215716673443079719282047542568236106812298043177926160484335224840785148089892750809324671645827318716684562838615113749761698267025405705783533217366053496622293060003627113722327927591637848522888339913638658202324964904695521164333875256488728715828788747946426915593599032843541752929605245820718111831950602382534562366314299604872001682097490874750856789159846759676484230961421703851378365353477587675102986985472096143663330982093764585503180072917859019897887259235989404582181250184509293332618938169260113266387466535682636918689270921515414080255982539571137764467347088620503873734975504272054921972130398366557630757795878160555040754491423528886898855513479458517453847641502840289958408536525662110386166230868851755701691255219504021142438845454258601776387706993978296258160913821800092548665996564032785340639244605688893952807554465212603673485976690585366182593235253749510872354810032926478694442789500013889676759410839345940270401080956825087957259143234188808726112373839066613955823523300426618796146562832009011225018747675417784584897538783666247473649607156762041727471558170281129662738675047701789707667850168985433183451254832758521190355057465145597874848932374999642619280514528460900064400089314193688610298777371353603667863600721200430793225693210906068743477343489254309178623512430482149928494456415748875989630203035088882425032212697277010048654411211028669146622698200540087928666217280356639276404517175286250781378900836096669847015889461774306110348946142356500640614890885605188996422930883098346695649893360004883234479508021973318656111569949100115234922825032175626473661704873965345389224138514176866746624381488761349109188578169410963224740186899170545292440805123868524183110520119385173722999351077731331788532495113121917666937724356472404695238392949376869000829753807071785677751892113938683140279344383467494562693961565106519170727155162369085518476407330434838284729380931686004085394404914349537416870792485403167672374483438418751730128065446357298463435855780071741189005068912074801843768054577043403120150302196152804984022055395948192702598732776716129463211330559689778008633509216545981286290846232708796495286436649307514545086189065828163422922790501038638117008224352048381220796178289654831167439458672665733546488978995227824030654866408616929784489767013230676594862567563027065932828666994584156032095599818935136557000419315674408635674387693526208020310100892351841553864497417253112330899979436425213712591215589575277097676804701089162838241996620561744538735942960378614177630469052159474928495655454985237675286174566903231524026586544847739712298943691555363505864423049634756720378303223895071916051053188962291094345831976856230921533364624434506548186628607804826987553323438132656170050132750779707899051737499235156179907511868903019033002549042297262736777923961992178568148765352253272668798071887608301811953811092645233640263094630456441346476187918918419214131532081986092782175571762216218653095529816582298140157020018436041457386874736206336160235206666242354636454332240234085862332308021459361489436292478828771366208462845437724707809313973385021823020353698819621328143650914790

/-- For each rank `j`, the position holding the output of rank `j`,
packed 16 bits per entry (the inverse table of `certR`). -/
def certQ : Nat := 441387047584195628751863571031028847989447397682461148112134896399341791203447539037016874658278499790222273661729176988305577432036051250807125060409403231135789294843774706868932885480727142319436671833085380343142569330459387157097559898554814193324615962172830571854660386459309536323260059334773588224847684271246280634080381670537085334734360170744857005082032659144215752338746669767308301466923086042487057337098765197272107119495514619545763870501742172337793795731054426087865622492163486282093527960224218564985488511846343904698630704760315938324172629473642479949046206046991213691470869206834754658621928898564809233014168996969922291581590116401534525370789937865753186646054563497584230492859244861842657746704532654372007527239541323647547338493714023704521439211175099566036825305268984419688548147618621228148633521008370245734480952237279271181464529501909337119701589592806430776623812333372347193270851572710294304209069607221470296942226516445783857393088868290715308190074293502287697733140120970569968847454837529038716539064497123833893456962116699188675655213634574857833855340966762402475378073409798420680078159396076799338104940589109840024340510687101628744753397257245620005510687201113890040434051290272718528013069226906264821765660017819199413447640150272218039083063876122058152631084099042947583134306489264595320712745446348601100561709527126730686341652830187268058793412333762117489453015464067461392963900176774510370891591943468138268895363891121054148540258417169172444912851116127241913899272903375184667168324821039821857321854341091576628114719831501989540368603696679262939953753977843289282934124593325194237647972408547781179734284528333127732671176936423133514125099015189549477675621274893271764955144781254970298102141335675836373647123123081395210325632647500347349314362747358122646226625283847338745050461354823560728065655685567144278421525850564170645059711461685774156988848028418151337093497247687136024721187048874052061671138491393288799120017914727039638720607727209767302249198227108931284822527037552254020066868725504583932238072197476085113686815868973307479797882774881197882243331307213229804903302799377736439228944839769468496333791947001886083148683274998687616388637506000118669186272666738609364499145787146993957480435131312016004295377088081561997283812192587431629040065219201113427459963045088723981592716563338749709778996958321786912162464004856205938075927419709130398029620337021064758764290774770498341729647182124865163798032268669729989232764435887605735569769572026244430039561785604346239486844441111339451259224965410758896255154233516132466221233358852342469560512081219864765798627143019294193175057350814112296772184659227050485833562308250079953490230740445563846994433232840990290614290521296826776004668075574742706090962048293391338838891653894096340380455187970085235160235563632380952540118672636795937149628049798835455332772438652261356222777441921864896283373882012738378744731699709546968477299728596556194615064239483672452851706105284593684644626110621182076061894766553080290329677791159925740780121879615931011699187693551480226169085112905142466667149141424790485401135280121881944730828592731214424884482254812363450500478587047405039851748198303555514416354459843272151257580882028704884157971207626413113379274407027000590569053620096370763454539835305959643210434757330545756571813071704515245488541842607053377261568534344356864262465208828974408106671563080897441114845266973065808019968625685501357058826710122426749873959811701660810699014522667317986007341857945164725197116408327540679541547838772167506435074892277987302769875366219706139200602804907599116363939528305803978210906067962698288193834839794783955084241006275505974797390403110337827016800617105683969515908456082738427347773908055754680028599277498772443336358070943244658249049867642717445041351136828484939489179433535889169734121274338440450543670857523102619476070273932800129319269027907144242209225146396352110230474638062381808301195148138199550086960061656951512480312596488720139633838002080758708520077956786760198342836901135430268397011381360725760709222740046461695206319305835244658765254396156468342365738803826167818655793611290051144628140016660160678878583453916754424080652356511579405231749087800609813659546703378141208090776478841514866331550736195293428379241262140418663404781975530811043023446612903328558249436693715271192617708757123695856567407682236644505789022216121014615187990574394409617090683865774282087963081286347311229133558776148190395331034593736541616828145000023706720694611598128195723455392862811630985054501924140794072100910533957300486493064660948773263250677002202407479692364128858694175354296022900137023291382497447468529519788001283176620185473012111247600742299726845217622730277540

/-- Sample vertex used by witness instantiations. -/
def sampleV0 : Vertex := ⟨⟨1, 2, 3⟩, ⟨0, 1, 0⟩, ⟨0, 0⟩⟩

/-- Sample vertex used by witness instantiations. -/
def sampleV1 : Vertex := ⟨⟨4, 5, 6⟩, ⟨1, 0, 0⟩, ⟨1, 0⟩⟩

/-- Sample vertex used by witness instantiations. -/
def sampleV2 : Vertex := ⟨⟨7, 8, 9⟩, ⟨0, 0, 1⟩, ⟨0, 1⟩⟩

/-! ### Bit-twiddling helper lemmas -/

theorem xorLeftComm (a b c : Nat) : a ^^^ (b ^^^ c) = b ^^^ (a ^^^ c) := by
  rw [← Nat.xor_assoc, Nat.xor_comm a b, Nat.xor_assoc]

theorem xorCancelLeft (a b : Nat) : a ^^^ (a ^^^ b) = b := by
  rw [← Nat.xor_assoc, Nat.xor_self, Nat.zero_xor]

theorem shiftRight_xor_distrib (a b k : Nat) :
    (a ^^^ b) >>> k = (a >>> k) ^^^ (b >>> k) := by
  apply Nat.eq_of_testBit_eq
  intro i
  simp [Nat.testBit_shiftRight, Nat.testBit_xor]

theorem shiftRight_lor_distrib (a b k : Nat) :
    (a ||| b) >>> k = (a >>> k) ||| (b >>> k) := by
  apply Nat.eq_of_testBit_eq
  intro i
  simp [Nat.testBit_shiftRight, Nat.testBit_lor]

theorem lor_mod_two_pow (a b k : Nat) :
    (a ||| b) % 2 ^ k = (a % 2 ^ k) ||| (b % 2 ^ k) := by
  apply Nat.eq_of_testBit_eq
  intro i
  simp [Nat.testBit_mod_two_pow, Nat.testBit_lor, Bool.and_or_distrib_left]

theorem shiftRight_shiftRight (x a b : Nat) : x >>> a >>> b = x >>> (a + b) :=
  (Nat.shiftRight_add x a b).symm

theorem shiftRight_eq_zero (x k : Nat) (h : x < 2 ^ k) : x >>> k = 0 := by
  rw [Nat.shiftRight_eq_div_pow]
  exact Nat.div_eq_of_lt h

theorem shiftRight_eq_zero_of_le (x n k : Nat) (h : x < 2 ^ n) (hk : n ≤ k) :
    x >>> k = 0 :=
  shiftRight_eq_zero x k (lt_of_lt_of_le h (Nat.pow_le_pow_right (by norm_num) hk))

theorem shiftRight_self_le (x k : Nat) : x >>> k ≤ x := by
  rw [Nat.shiftRight_eq_div_pow]
  exact Nat.div_le_self x (2 ^ k)

/-! ### Claims C1, C2, C8, C9 -/

/-- Claim C1: one `RngNext` call returns `seedX * 0x9e3779bb` (mod `2^32`)
computed from the state before mutation, and updates the state exactly by
`seedY' = seedY XOR seedX`, `seedX'' = rotateLeft32(seedX, 26) XOR seedY' XOR
(seedY' << 9)`, `seedY'' = rotateLeft32(seedX'', 13)`, on 32-bit words. -/
theorem RngNext_step_spec (sx sy : Nat) (hx : sx < 2 ^ 32) (hy : sy < 2 ^ 32) :
    RngNext ⟨⟨sx, sy⟩⟩ =
      (sx * 0x9e3779bb % 2 ^ 32,
        ⟨⟨rotateLeft32 sx 26 ^^^ (sy ^^^ sx) ^^^ (((sy ^^^ sx) <<< 9) % 2 ^ 32),
          rotateLeft32
            (rotateLeft32 sx 26 ^^^ (sy ^^^ sx) ^^^ (((sy ^^^ sx) <<< 9) % 2 ^ 32))
            13⟩⟩) := rfl

/-- Witness for claim C1 at the concrete state `(3, 5)`. -/
theorem RngNext_step_spec_witness :
    RngNext ⟨⟨3, 5⟩⟩ =
      (3 * 0x9e3779bb % 2 ^ 32,
        ⟨⟨rotateLeft32 3 26 ^^^ (5 ^^^ 3) ^^^ (((5 ^^^ 3) <<< 9) % 2 ^ 32),
          rotateLeft32
            (rotateLeft32 3 26 ^^^ (5 ^^^ 3) ^^^ (((5 ^^^ 3) <<< 9) % 2 ^ 32))
            13⟩⟩) :=
  RngNext_step_spec 3 5 (by decide) (by decide)

/-- Claim C2: `InitCRND` returns the state obtained by setting
`seedX = Hash((id.x << 16) | id.y)` and `seedY = Hash(frameIndex)` and then
advancing the generator exactly once, discarding the produced value. -/
theorem InitCRND_spec (id : uint2) (frameIndex : Nat)
    (hx : id.x < 2 ^ 32) (hy : id.y < 2 ^ 32) (hf : frameIndex < 2 ^ 32) :
    InitCRND id frameIndex =
      (RngNext ⟨⟨Hash (((id.x <<< 16) % 2 ^ 32) ||| id.y), Hash frameIndex⟩⟩).2 := rfl

/-- Witness for claim C2 at the concrete inputs `id = (2, 7)`, frame `11`. -/
theorem InitCRND_spec_witness :
    InitCRND ⟨2, 7⟩ 11 =
      (RngNext ⟨⟨Hash (((2 <<< 16) % 2 ^ 32) ||| 7), Hash 11⟩⟩).2 :=
  InitCRND_spec ⟨2, 7⟩ 11 (by decide) (by decide) (by decide)

/-- Claim C8: `Hash 0` differs from `Hash 1`, and the initial state for
id `(0, 0)` differs between frame index 0 and frame index 1. -/
theorem Hash_and_InitCRND_sensitivity :
    Hash 0 ≠ Hash 1 ∧ InitCRND ⟨0, 0⟩ 0 ≠ InitCRND ⟨0, 0⟩ 1 := by
  refine ⟨?_, ?_⟩
  · decide
  · decide

/-- Claim C9: the all-zero state is a fixed point of the step function: the
call returns `0`, leaves the state at `(0, 0)`, and consequently every
subsequent call also returns `0` (the generator is permanently stuck). -/
theorem RngNext_zero_fixed_point :
    RngNext ⟨⟨0, 0⟩⟩ = (0, ⟨⟨0, 0⟩⟩) ∧
      ∀ n : Nat, rngOutputs ⟨⟨0, 0⟩⟩ n = List.replicate n 0 := by
  refine ⟨rfl, ?_⟩
  intro n
  induction n with
  | zero => rfl
  | succ n ih =>
    have h : RngNext ⟨⟨0, 0⟩⟩ = (0, ⟨⟨0, 0⟩⟩) := rfl
    simp [rngOutputs, h, ih, List.replicate_succ]

/-! ### Claims C4 and C5: vertex interpolation -/

/-- Claim C4: for all vertices and weights `u`, `v` with `u + v ≤ 1`, the
two-weight interpolation overload agrees field-for-field with the
three-weight overload applied to `(u, v, 1 - u - v)`. -/
theorem Interpolate_two_eq_three (v0 v1 v2 : Vertex) (u v : ℚ) (h : u + v ≤ 1) :
    Interpolate2 v0 v1 v2 ⟨u, v⟩ = Interpolate3 v0 v1 v2 ⟨u, v, 1 - u - v⟩ := rfl

/-- Witness for claim C4 at concrete vertices and weights `(1/4, 1/4)`. -/
theorem Interpolate_two_eq_three_witness :
    Interpolate2 sampleV0 sampleV1 sampleV2 ⟨1 / 4, 1 / 4⟩ =
      Interpolate3 sampleV0 sampleV1 sampleV2 ⟨1 / 4, 1 / 4, 1 - 1 / 4 - 1 / 4⟩ :=
  Interpolate_two_eq_three sampleV0 sampleV1 sampleV2 (1 / 4) (1 / 4) (by norm_num)

/-- Claim C5: three-weight interpolation with weights `(1,0,0)`, `(0,1,0)`,
`(0,0,1)` returns exactly `v0`, `v1`, `v2` respectively, on all fields. -/
theorem Interpolate_identity_weights (v0 v1 v2 : Vertex) :
    Interpolate3 v0 v1 v2 ⟨1, 0, 0⟩ = v0 ∧ Interpolate3 v0 v1 v2 ⟨0, 1, 0⟩ = v1 ∧
      Interpolate3 v0 v1 v2 ⟨0, 0, 1⟩ = v2 := by
  refine ⟨?_, ?_, ?_⟩ <;>
    · ext <;>
        simp [Interpolate3, float3.mulScalar, float3.add, float2.mulScalar, float2.add]

/-! ### Claim C3: uniform float extraction -/

theorem float32ValOfBits_lor (m : Nat) (hm : m < 2 ^ 23) :
    float32ValOfBits (0x3f800000 ||| m) = 1 + (m : ℚ) / 2 ^ 23 := by
  have hs : (0x3f800000 ||| m) >>> 31 = 0 := by
    rw [shiftRight_lor_distrib, shiftRight_eq_zero_of_le m 23 31 hm (by norm_num)]
    decide
  have he : ((0x3f800000 ||| m) >>> 23) % 2 ^ 8 = 127 := by
    rw [shiftRight_lor_distrib, shiftRight_eq_zero_of_le m 23 23 hm (by norm_num)]
    decide
  have hm' : (0x3f800000 ||| m) % 2 ^ 23 = m := by
    rw [lor_mod_two_pow, Nat.mod_eq_of_lt hm,
      show (0x3f800000 : Nat) % 2 ^ 23 = 0 from by norm_num, Nat.zero_or]
  simp only [float32ValOfBits]
  rw [hs, he, hm']
  norm_num

/-- Claim C3: for every word produced by the RNG step, `Rand` computes the
pattern `0x3f800000 | (w >> 9)`, reinterprets it as an IEEE-754 single,
subtracts `1.0`, and the result lies in `[0, 1)`: never negative and never
equal to or above `1`. -/
theorem Rand_mem_unit_interval (rng : CRNG) :
    0 ≤ (Rand rng).1 ∧ (Rand rng).1 < 1 := by
  have hw : (RngNext rng).1 < 2 ^ 32 := by
    have h : (RngNext rng).1 = rng.Seed.x * 0x9e3779bb % 2 ^ 32 := rfl
    rw [h]
    exact Nat.mod_lt _ (by norm_num)
  have hm : (RngNext rng).1 >>> 9 < 2 ^ 23 := by
    rw [Nat.shiftRight_eq_div_pow]
    exact Nat.div_lt_of_lt_mul (by norm_num at hw ⊢; omega)
  have hval : (Rand rng).1 =
      float32ValOfBits (0x3f800000 ||| ((RngNext rng).1 >>> 9)) - 1 := rfl
  rw [hval, float32ValOfBits_lor _ hm]
  constructor
  · have h0 : (0 : ℚ) ≤ (((RngNext rng).1 >>> 9 : Nat) : ℚ) / 2 ^ 23 := by positivity
    linarith
  · have h1 : (((RngNext rng).1 >>> 9 : Nat) : ℚ) / 2 ^ 23 < 1 := by
      rw [div_lt_one (by positivity)]
      exact_mod_cast hm
    linarith

/-! ### Claim C6: the hash stage structure -/

theorem hash_eq_stages (x : Nat) :
    Hash x =
      xorShift 15 (mulMod32 0x27d4eb2d (xorShift 4 (mulMod32 9 (xorShift 16 x ^^^ 61)))) := by
  have h1 : (x ^^^ 61) ^^^ (x >>> 16) = (x ^^^ (x >>> 16)) ^^^ 61 := by
    rw [Nat.xor_assoc, Nat.xor_comm 61, ← Nat.xor_assoc]
  simp only [Hash, xorShift, mulMod32, h1]

/-- Claim C6 counterexample: `Hash` is not of the spec's bare five-stage form
(xor-shift, times 9, xor-shift, times `0x27d4eb2d`, xor-shift) for any choice
of the three shift amounts: every such pipeline maps `0` to `0`, but
`Hash 0 ≠ 0` because of the extra XOR with the constant `61`. -/
theorem Hash_not_spec_five_stage :
    ¬ ∃ a b c : Nat, ∀ x, x < 2 ^ 32 → Hash x = hashSpecForm a b c x := by
  rintro ⟨a, b, c, h⟩
  have h0 := h 0 (by norm_num)
  have hz : hashSpecForm a b c 0 = 0 := by
    simp [hashSpecForm, xorShift, mulMod32, Nat.zero_shiftRight]
  rw [hz] at h0
  exact absurd h0 (by decide)

/-- Claim C6 (amended): for every input, `Hash` computes the five-stage
sequence with shift amounts 16, 4, 15 and multipliers 9 and `0x27d4eb2d`,
except that the first stage additionally XORs the constant 61:
`seed = (seed ^ 61) ^ (seed >> 16)`. All arithmetic is modulo `2^32`. -/
theorem Hash_five_stage_with_const61 (x : Nat) :
    Hash x =
      xorShift 15 (mulMod32 0x27d4eb2d (xorShift 4 (mulMod32 9 (xorShift 16 x ^^^ 61)))) :=
  hash_eq_stages x

/-! ### Claim C10: the hash is a bijection on 32-bit words -/

theorem xorShift_lt (k x : Nat) (h : x < 2 ^ 32) : xorShift k x < 2 ^ 32 :=
  Nat.xor_lt_two_pow h (lt_of_le_of_lt (shiftRight_self_le x k) h)

theorem mulMod32_lt (c x : Nat) : mulMod32 c x < 2 ^ 32 :=
  Nat.mod_lt _ (by norm_num)

theorem xorShift16_leftInv (x : Nat) (h : x < 2 ^ 32) :
    xorShift 16 (xorShift 16 x) = x := by
  have h32 : x >>> 16 >>> 16 = 0 := by
    rw [shiftRight_shiftRight]
    exact shiftRight_eq_zero_of_le x 32 (16 + 16) h (by norm_num)
  simp only [xorShift]
  rw [shiftRight_xor_distrib, h32]
  simp [Nat.xor_assoc, Nat.xor_self, Nat.xor_zero]

theorem xorShift15_leftInv (x : Nat) (h : x < 2 ^ 32) :
    xorShift 15 x ^^^ (xorShift 15 x >>> 15) ^^^ (xorShift 15 x >>> 30) = x := by
  have e1 : x >>> 15 >>> 15 = x >>> 30 := by rw [shiftRight_shiftRight]
  have e2 : x >>> 15 >>> 30 = 0 := by
    rw [shiftRight_shiftRight]
    exact shiftRight_eq_zero_of_le x 32 (15 + 30) h (by norm_num)
  simp only [xorShift]
  rw [shiftRight_xor_distrib, shiftRight_xor_distrib, e1, e2]
  simp [Nat.xor_assoc, Nat.xor_comm, xorLeftComm, xorCancelLeft, Nat.xor_zero, Nat.xor_self]

theorem xorShift4_leftInv (x : Nat) (h : x < 2 ^ 32) :
    xorShift 4 x ^^^ (xorShift 4 x >>> 4) ^^^ (xorShift 4 x >>> 8) ^^^
      (xorShift 4 x >>> 12) ^^^ (xorShift 4 x >>> 16) ^^^ (xorShift 4 x >>> 20) ^^^
      (xorShift 4 x >>> 24) ^^^ (xorShift 4 x >>> 28) = x := by
  have hz : x >>> 32 = 0 := shiftRight_eq_zero x 32 h
  simp [xorShift, shiftRight_xor_distrib, shiftRight_shiftRight, hz, Nat.xor_assoc,
    Nat.xor_comm, xorLeftComm, xorCancelLeft, Nat.xor_zero, Nat.xor_self]

theorem xorShift16_inj (x y : Nat) (hx : x < 2 ^ 32) (hy : y < 2 ^ 32)
    (h : xorShift 16 x = xorShift 16 y) : x = y := by
  have hx' := xorShift16_leftInv x hx
  rw [h] at hx'
  exact hx'.symm.trans (xorShift16_leftInv y hy)

theorem xorShift15_inj (x y : Nat) (hx : x < 2 ^ 32) (hy : y < 2 ^ 32)
    (h : xorShift 15 x = xorShift 15 y) : x = y := by
  have hx' := xorShift15_leftInv x hx
  rw [h] at hx'
  exact hx'.symm.trans (xorShift15_leftInv y hy)

theorem xorShift4_inj (x y : Nat) (hx : x < 2 ^ 32) (hy : y < 2 ^ 32)
    (h : xorShift 4 x = xorShift 4 y) : x = y := by
  have hx' := xorShift4_leftInv x hx
  rw [h] at hx'
  exact hx'.symm.trans (xorShift4_leftInv y hy)

theorem mulMod32_inj (c x y : Nat) (hc : Nat.gcd (2 ^ 32) c = 1)
    (hx : x < 2 ^ 32) (hy : y < 2 ^ 32) (h : mulMod32 c x = mulMod32 c y) : x = y := by
  have hmod : x * c ≡ y * c [MOD 2 ^ 32] := h
  have hxy := Nat.ModEq.cancel_right_of_coprime hc hmod
  unfold Nat.ModEq at hxy
  rwa [Nat.mod_eq_of_lt hx, Nat.mod_eq_of_lt hy] at hxy

theorem coprime_mul9 : Nat.gcd (2 ^ 32) 9 = 1 := Nat.Coprime.pow_left 32 (by norm_num)

theorem coprime_mul27d4eb2d : Nat.gcd (2 ^ 32) 0x27d4eb2d = 1 :=
  Nat.Coprime.pow_left 32 (by norm_num)

theorem Hash_lt (x : Nat) : Hash x < 2 ^ 32 := by
  rw [hash_eq_stages]
  exact xorShift_lt 15 _ (mulMod32_lt _ _)

theorem Hash_inj_below (x y : Nat) (hx : x < 2 ^ 32) (hy : y < 2 ^ 32)
    (h : Hash x = Hash y) : x = y := by
  rw [hash_eq_stages, hash_eq_stages] at h
  have h1 := xorShift15_inj _ _ (mulMod32_lt _ _) (mulMod32_lt _ _) h
  have h2 := mulMod32_inj 0x27d4eb2d _ _ coprime_mul27d4eb2d
    (xorShift_lt 4 _ (mulMod32_lt _ _)) (xorShift_lt 4 _ (mulMod32_lt _ _)) h1
  have h3 := xorShift4_inj _ _ (mulMod32_lt _ _) (mulMod32_lt _ _) h2
  have h4 := mulMod32_inj 9 _ _ coprime_mul9
    (Nat.xor_lt_two_pow (xorShift_lt 16 x hx) (by norm_num))
    (Nat.xor_lt_two_pow (xorShift_lt 16 y hy) (by norm_num)) h3
  have h5 : xorShift 16 x = xorShift 16 y := by
    have h6 := congrArg (fun z => z ^^^ 61) h4
    simpa [Nat.xor_assoc, Nat.xor_self, Nat.xor_zero] using h6
  exact xorShift16_inj _ _ hx hy h5

/-- Claim C10: `Hash` restricted to 32-bit values is a bijection of the
32-bit range onto itself (each stage is invertible), so distinct 32-bit
inputs always hash to distinct outputs. -/
theorem Hash_bijOn_32bit :
    Set.BijOn Hash (Set.Iio (2 ^ 32)) (Set.Iio (2 ^ 32)) ∧
      ∀ x y : Nat, x < 2 ^ 32 → y < 2 ^ 32 → x ≠ y → Hash x ≠ Hash y := by
  have hmaps : Set.MapsTo Hash (Set.Iio (2 ^ 32)) (Set.Iio (2 ^ 32)) := fun x _ =>
    Set.mem_Iio.mpr (Hash_lt x)
  have hinj : Set.InjOn Hash (Set.Iio (2 ^ 32)) := fun x hx y hy h =>
    Hash_inj_below x y (Set.mem_Iio.mp hx) (Set.mem_Iio.mp hy) h
  refine ⟨(Set.Finite.injOn_iff_bijOn_of_mapsTo (Set.finite_Iio _) hmaps).mp hinj, ?_⟩
  intro x y hx hy hne heq
  exact hne (Hash_inj_below x y hx hy heq)

/-- Witness for claim C10: distinct inputs 2 and 3 hash to distinct values. -/
theorem Hash_bijOn_32bit_witness : Hash 2 ≠ Hash 3 :=
  Hash_bijOn_32bit.2 2 3 (by norm_num) (by norm_num) (by norm_num)

/-! ### Claim C7: the first 1000 outputs from a fixed seed are distinct

The run is too long to check pairwise by brute force, so distinctness is
established through a sorting certificate: `certV` lists the 1000 output
values in ascending order (packed 32 bits per value), `certR` gives the rank
of each output position in that order (packed 16 bits per entry), and
`certQ` is the positional inverse of `certR`. Strict ascent of `certV`,
pointwise agreement of the outputs with `certV` through `certR`, and
left-invertibility of `certR` through `certQ` are each verified by a linear
scan, and together imply that no output value repeats. -/

theorem rngOutputs_length (s : CRNG) (n : Nat) : (rngOutputs s n).length = n := by
  induction n generalizing s with
  | zero => rfl
  | succ n ih => simp [rngOutputs, ih]

theorem rngNext_fst_lt (s : CRNG) : (RngNext s).1 < 2 ^ 32 := by
  have h : (RngNext s).1 = s.Seed.x * 0x9e3779bb % 2 ^ 32 := rfl
  rw [h]
  exact Nat.mod_lt _ (by norm_num)

theorem packOuts_add (s : CRNG) (m n : Nat) :
    packOuts s (m + n) = packOuts s m + (packOuts (rngIter s m) n <<< (32 * m)) := by
  induction m generalizing s with
  | zero =>
    simp [packOuts, rngIter, Nat.shiftLeft_zero]
  | succ m ih =>
    have hadd : m + 1 + n = (m + n) + 1 := by omega
    rw [hadd]
    simp only [packOuts, rngIter]
    rw [ih]
    simp only [Nat.shiftLeft_eq]
    ring

theorem digit32_zero_add (w x : Nat) (hw : w < 2 ^ 32) :
    digit32 (w + (x <<< 32)) 0 = w := by
  simp only [digit32, Nat.mul_zero, Nat.shiftRight_zero, Nat.shiftLeft_eq]
  rw [Nat.add_mul_mod_self_right]
  exact Nat.mod_eq_of_lt hw

theorem digit32_succ_add (w x : Nat) (hw : w < 2 ^ 32) (i : Nat) :
    digit32 (w + (x <<< 32)) (i + 1) = digit32 x i := by
  simp only [digit32, Nat.shiftLeft_eq, Nat.shiftRight_eq_div_pow]
  have h1 : 32 * (i + 1) = 32 + 32 * i := by ring
  rw [h1, pow_add, ← Nat.div_div_eq_div_mul]
  have h2 : (w + x * 2 ^ 32) / 2 ^ 32 = x := by
    rw [Nat.add_mul_div_right _ _ (by positivity : (0 : Nat) < 2 ^ 32),
      Nat.div_eq_of_lt hw, Nat.zero_add]
  rw [h2]

theorem rngOutputs_getD (n : Nat) (s : CRNG) (i : Nat) (hi : i < n) :
    (rngOutputs s n).getD i 0 = digit32 (packOuts s n) i := by
  induction n generalizing s i with
  | zero => omega
  | succ n ih =>
    have hpk : packOuts s (n + 1) = (RngNext s).1 + (packOuts (RngNext s).2 n <<< 32) := rfl
    cases i with
    | zero =>
      show (RngNext s).1 = digit32 (packOuts s (n + 1)) 0
      rw [hpk]
      exact (digit32_zero_add _ _ (rngNext_fst_lt s)).symm
    | succ i =>
      show (rngOutputs (RngNext s).2 n).getD i 0 = digit32 (packOuts s (n + 1)) (i + 1)
      rw [hpk, digit32_succ_add _ _ (rngNext_fst_lt s)]
      exact ih (RngNext s).2 i (by omega)

theorem ascentBelow_sound (V : Nat) :
    ∀ k, ascentBelow V k = true → ∀ i, i < k → digit32 V i < digit32 V (i + 1) := by
  intro k
  induction k with
  | zero => intro _ i hi; omega
  | succ k ih =>
    intro h i hi
    rw [show ascentBelow V (k + 1) =
        (decide (digit32 V k < digit32 V (k + 1)) && ascentBelow V k) from rfl,
      Bool.and_eq_true] at h
    rcases Nat.lt_succ_iff_lt_or_eq.mp hi with hlt | heq
    · exact ih h.2 i hlt
    · subst heq
      exact of_decide_eq_true h.1

theorem digit32_mono_of_ascent (V k : Nat)
    (h : ∀ i, i < k → digit32 V i < digit32 V (i + 1)) :
    ∀ a b, a < b → b ≤ k → digit32 V a < digit32 V b := by
  intro a b
  induction b with
  | zero => omega
  | succ b ih =>
    intro hab hbk
    rcases Nat.lt_succ_iff_lt_or_eq.mp hab with hlt | heq
    · exact lt_trans (ih hlt (by omega)) (h b (by omega))
    · subst heq
      exact h a (by omega)

theorem leftInvBelow_sound (R Q : Nat) :
    ∀ k, leftInvBelow R Q k = true → ∀ j, j < k → digit16 Q (digit16 R j) = j := by
  intro k
  induction k with
  | zero => intro _ j hj; omega
  | succ k ih =>
    intro h j hj
    rw [show leftInvBelow R Q (k + 1) =
        ((digit16 Q (digit16 R k) == k) && leftInvBelow R Q k) from rfl,
      Bool.and_eq_true] at h
    rcases Nat.lt_succ_iff_lt_or_eq.mp hj with hlt | heq
    · exact ih h.2 j hlt
    · subst heq
      exact eq_of_beq h.1

theorem valsBelow_sound (W V R b : Nat) :
    ∀ k, valsBelow W V R b k = true →
      ∀ p, p < k → digit16 R p < b ∧ digit32 W p = digit32 V (digit16 R p) := by
  intro k
  induction k with
  | zero => intro _ p hp; omega
  | succ k ih =>
    intro h p hp
    rw [show valsBelow W V R b (k + 1) =
        ((decide (digit16 R k < b) && (digit32 W k == digit32 V (digit16 R k))) &&
          valsBelow W V R b k) from rfl,
      Bool.and_eq_true, Bool.and_eq_true] at h
    rcases Nat.lt_succ_iff_lt_or_eq.mp hp with hlt | heq
    · exact ih h.2 p hlt
    · subst heq
      exact ⟨of_decide_eq_true h.1.1, eq_of_beq h.1.2⟩

theorem rngOutputs_nodup_of_cert (s : CRNG) (n V R Q : Nat)
    (hv : valsBelow (packOuts s n) V R n n = true)
    (ha : ascentBelow V (n - 1) = true)
    (hq : leftInvBelow R Q n = true) :
    (rngOutputs s n).Nodup := by
  apply List.pairwise_iff_get.mpr
  intro i j hij
  have hlen := rngOutputs_length s n
  have hi : (i : Nat) < n := by have := i.isLt; omega
  have hj : (j : Nat) < n := by have := j.isLt; omega
  have hgi : (rngOutputs s n).get i = digit32 (packOuts s n) i := by
    rw [List.get_eq_getElem, ← List.getD_eq_getElem _ 0 i.isLt]
    exact rngOutputs_getD n s i hi
  have hgj : (rngOutputs s n).get j = digit32 (packOuts s n) j := by
    rw [List.get_eq_getElem, ← List.getD_eq_getElem _ 0 j.isLt]
    exact rngOutputs_getD n s j hj
  obtain ⟨hri, hvi⟩ := valsBelow_sound _ _ _ _ _ hv i hi
  obtain ⟨hrj, hvj⟩ := valsBelow_sound _ _ _ _ _ hv j hj
  intro heq
  have hval : digit32 V (digit16 R i) = digit32 V (digit16 R j) := by
    rw [← hvi, ← hvj, ← hgi, ← hgj, heq]
  have hrne : digit16 R (i : Nat) ≠ digit16 R (j : Nat) := by
    intro hre
    have e1 := leftInvBelow_sound R Q n hq i hi
    have e2 := leftInvBelow_sound R Q n hq j hj
    rw [hre, e2] at e1
    have : (i : Nat) < (j : Nat) := hij
    omega
  have hmono := digit32_mono_of_ascent V (n - 1) (ascentBelow_sound V (n - 1) ha)
  rcases Nat.lt_or_ge (digit16 R i) (digit16 R j) with hlt | hge
  · exact absurd hval (Nat.ne_of_lt (hmono _ _ hlt (by omega)))
  · have hgt : digit16 R (j : Nat) < digit16 R (i : Nat) := by omega
    exact absurd hval.symm (Nat.ne_of_lt (hmono _ _ hgt (by omega)))

set_option maxRecDepth 40000 in
theorem certS0_eq : InitCRND ⟨0, 0⟩ 0 = certS0 := by decide

set_option maxRecDepth 40000 in
theorem certIter250 : rngIter certS0 250 = certS250 := by decide

set_option maxRecDepth 40000 in
theorem certIter500 : rngIter certS250 250 = certS500 := by decide

set_option maxRecDepth 40000 in
theorem certIter750 : rngIter certS500 250 = certS750 := by decide

set_option maxRecDepth 40000 in
theorem certPack1 : packOuts certS0 250 = certW1 := by decide

set_option maxRecDepth 40000 in
theorem certPack2 : packOuts certS250 250 = certW2 := by decide

set_option maxRecDepth 40000 in
theorem certPack3 : packOuts certS500 250 = certW3 := by decide

set_option maxRecDepth 40000 in
theorem certPack4 : packOuts certS750 250 = certW4 := by decide

set_option maxRecDepth 40000 in
theorem certPackAll : packOuts certS0 1000 = certW := by
  rw [show (1000 : Nat) = 250 + 750 from rfl, packOuts_add, certIter250, certPack1]
  rw [show (750 : Nat) = 250 + 500 from rfl, packOuts_add, certIter500, certPack2]
  rw [show (500 : Nat) = 250 + 250 from rfl, packOuts_add, certIter750, certPack3, certPack4]
  decide

set_option maxRecDepth 40000 in
theorem certAscent : ascentBelow certV (1000 - 1) = true := by decide

set_option maxRecDepth 40000 in
theorem certLeftInv : leftInvBelow certR certQ 1000 = true := by decide

set_option maxRecDepth 40000 in
theorem certVals : valsBelow certW certV certR 1000 1000 = true := by decide

/-- Claim C7: for the fixed initial state produced by `InitCRND ⟨0,0⟩ 0`, the
first 1000 values returned by successive `RngNext` calls are pairwise
distinct. -/
theorem rngOutputs_first_1000_nodup :
    (rngOutputs (InitCRND ⟨0, 0⟩ 0) 1000).Nodup := by
  rw [certS0_eq]
  exact rngOutputs_nodup_of_cert certS0 1000 certV certR certQ
    (by rw [certPackAll]; exact certVals) certAscent certLeftInv

end MetalPT
